import Mathlib

/-!
Shallow embedding of `spotkg/spot_client.py` (class `SpotClient`), covering the
autowalk upload/playback control flow, the lease/power/session lifecycle and the
best-effort command dispatch.  External services (the mission client, the
graph-nav client, the lease client, the robot power interface, the file system)
are modelled as explicit parameters: polled states come in as values or as a
script (the successive `get_state()` results), and every outgoing RPC is
recorded in a `List Req` so that theorems can speak about which requests a call
issues.
-/

namespace SpotKG

/-- Mission status enumeration, mirroring `mission_pb2.State.Status`. -/
inductive MissionStatus
  | sUnknown
  | sFailure
  | sRunning
  | sSuccess
  | sPaused
  | sError
  | sNone
  | sStopped
deriving DecidableEq

/-- `mission_state.Status.Name(...)`: the printable name of a status. -/
def statusName : MissionStatus → String
  | MissionStatus.sUnknown => "STATUS_UNKNOWN"
  | MissionStatus.sFailure => "STATUS_FAILURE"
  | MissionStatus.sRunning => "STATUS_RUNNING"
  | MissionStatus.sSuccess => "STATUS_SUCCESS"
  | MissionStatus.sPaused => "STATUS_PAUSED"
  | MissionStatus.sError => "STATUS_ERROR"
  | MissionStatus.sNone => "STATUS_NONE"
  | MissionStatus.sStopped => "STATUS_STOPPED"

/-- The fields of `mission_pb2.State` read by `spot_client.py`: `status`,
`mission_id` (sentinel `-1` when no mission is loaded), the repeated field
`questions` (the code only tests its truthiness, i.e. non-emptiness) and
`error`. -/
structure MissionState where
  status : MissionStatus
  missionId : Int
  questions : List String
  errMsg : String
deriving DecidableEq

/-- Exceptions raised by (or through) `SpotClient` methods. -/
inductive SpotErr
  | autowalkStartError (msg : String)
  | noMissionRunningException (msg : String)
  | attributeError
  | assertionError (msg : String)
  | keyError (id : String)
  | connectionError
  | fileMissing (name : String)
deriving DecidableEq

/-- Outgoing requests to the robot's services, in the order they are issued. -/
inductive Req
  | play
  | stopMission
  | pauseMission
  | downloadGraph
  | setLocalization
  | uploadGraph (generateNewAnchoring : Bool)
  | uploadWaypointSnapshot (id : String)
  | uploadEdgeSnapshot (id : String)
  | loadAutowalk
  | powerOnRpc (timeoutSec : Nat)
  | powerOffRpc (timeoutSec : Nat)
  | acquireLease
  | leaseShutdown
  | stopTimeSync
deriving DecidableEq

/-- `stop_autowalk`: `st0` is the first `get_state()` result, `st1` the state
re-polled after the stop request.  Raises `NoMissionRunningException` (issuing
no request) unless the status is RUNNING or PAUSED; otherwise issues
`stop_mission` and returns whether the new status is SUCCESS or STOPPED. -/
def stop_autowalk (st0 st1 : MissionState) : Except SpotErr Bool × List Req :=
  if ¬(st0.status = MissionStatus.sRunning ∨ st0.status = MissionStatus.sPaused) then
    (Except.error (SpotErr.noMissionRunningException ("Mission status: " ++ statusName st0.status)), [])
  else
    (Except.ok (decide (st1.status = MissionStatus.sSuccess ∨ st1.status = MissionStatus.sStopped)),
     [Req.stopMission])

/-- `pause_autowalk`: raises `NoMissionRunningException` (issuing no request)
unless the status is exactly RUNNING; otherwise issues `pause_mission` and
returns whether the re-polled status is PAUSED. -/
def pause_autowalk (st0 st1 : MissionState) : Except SpotErr Bool × List Req :=
  if st0.status ≠ MissionStatus.sRunning then
    (Except.error (SpotErr.noMissionRunningException ("Mission status: " ++ statusName st0.status)), [])
  else
    (Except.ok (decide (st1.status = MissionStatus.sPaused)), [Req.pauseMission])

/-- The retry loop of `start_autowalk` (lines 487-507).  `st` is the mission
state at the loop head; `script` supplies the successive `get_state()` results
observed after each play request.  Returns `Option.none` when the script is
exhausted while the loop still needs a poll (the real loop would poll again). -/
def startLoop : MissionState → List MissionState → Option (Except SpotErr Bool × List Req)
  | st, script =>
    if st.status = MissionStatus.sNone ∨ st.status = MissionStatus.sPaused then
      if st.questions ≠ [] then
        some (Except.ok false, [])
      else
        match script with
        | [] => Option.none
        | st1 :: rest =>
          if st1.status = MissionStatus.sError ∨ st1.status = MissionStatus.sFailure then
            some (Except.error (SpotErr.autowalkStartError ("error starting autowalk: " ++ st1.errMsg)),
                  [Req.play])
          else
            match startLoop st1 rest with
            | Option.none => Option.none
            | some (r, reqs) => some (r, Req.play :: reqs)
    else
      some (Except.ok (decide (st.status = MissionStatus.sRunning ∨ st.status = MissionStatus.sPaused)), [])

/-- `start_autowalk`: optional localization step (download graph, set
localization from the nearest fiducial), then fail fast when the reported
`mission_id` is the sentinel `-1`, then the retry loop.  `st0` is the state
from the first `get_state()`; `script` the states of later polls. -/
def start_autowalk (doLocalize : Bool) (st0 : MissionState) (script : List MissionState) :
    Option (Except SpotErr Bool × List Req) :=
  let localReqs : List Req := if doLocalize then [Req.downloadGraph, Req.setLocalization] else []
  if st0.missionId = -1 then
    some (Except.error (SpotErr.autowalkStartError "No mission is loaded. Please upload a mission first."),
          localReqs)
  else
    match startLoop st0 script with
    | Option.none => Option.none
    | some (r, reqs) => some (r, localReqs ++ reqs)

/-- A graph waypoint as read by `_upload_graph_and_snapshots`: only the
`snapshot_id` reference matters to this layer (empty string = no snapshot). -/
structure Waypoint where
  snapshot_id : String
deriving DecidableEq

/-- A graph edge: its `snapshot_id` reference and the
`annotations.disable_alternate_route_finding` flag. -/
structure Edge where
  snapshot_id : String
  disableAlternateRouteFinding : Bool
deriving DecidableEq

/-- The parts of `map_pb2.Graph` the code touches: waypoints, edges and the
anchoring's anchor list (only its emptiness is read). -/
structure Graph where
  waypoints : List Waypoint
  edges : List Edge
  anchors : List Unit
deriving DecidableEq

/-- A parsed snapshot file (`map_pb2.WaypointSnapshot` / `EdgeSnapshot`): the
code reads only its `id` field, which may differ from the file name it was
loaded from. -/
structure Snapshot where
  id : String
deriving DecidableEq

/-- The reply to `upload_graph`: the waypoint/edge snapshot ids the service
does not already have cached. -/
structure UploadResponse where
  unknown_waypoint_snapshot_ids : List String
  unknown_edge_snapshot_ids : List String
deriving DecidableEq

/-- The snapshot-loading loops (lines 405-429): walk the snapshot-id
references in graph order, skip empty references, read each file (a missing or
unparsable file is fatal) and record the parsed snapshot under the id STORED IN
THE FILE.  Later insertions shadow earlier ones, as in a Python dict, because
the accumulator is consed at the head and looked up front-first. -/
def loadSnapshots (files : String → Option Snapshot) :
    List String → List (String × Snapshot) → Except SpotErr (List (String × Snapshot))
  | [], acc => Except.ok acc
  | sid :: rest, acc =>
    if sid.length = 0 then
      loadSnapshots files rest acc
    else
      match files sid with
      | Option.none => Except.error (SpotErr.fileMissing sid)
      | some snap => loadSnapshots files rest ((snap.id, snap) :: acc)

/-- Python dict lookup on the association list built by `loadSnapshots`. -/
def dictLookup (d : List (String × Snapshot)) (k : String) : Option Snapshot :=
  (d.find? (fun p => p.fst == k)).map Prod.snd

/-- The differential-sync loops (lines 438-446): for each id the upload
response reported unknown, look it up UNGUARDED in the loaded dictionary (a
missing key raises `KeyError` before any request for that id is issued) and
upload the snapshot found there. -/
def uploadUnknown (d : List (String × Snapshot)) (mk : String → Req) :
    List String → Except SpotErr Unit × List Req
  | [] => (Except.ok (), [])
  | sid :: rest =>
    match dictLookup d sid with
    | Option.none => (Except.error (SpotErr.keyError sid), [])
    | some _ =>
      ((uploadUnknown d mk rest).fst, mk sid :: (uploadUnknown d mk rest).snd)

/-- The optional per-edge transform of `_upload_graph_and_snapshots` (lines
400-403): set `disable_alternate_route_finding` on every edge annotation
before upload. -/
def applyDisableAlt (graph : Graph) (disableAlternateRouteFinding : Bool) : Graph :=
  if disableAlternateRouteFinding then
    ⟨graph.waypoints, graph.edges.map (fun e => ⟨e.snapshot_id, true⟩), graph.anchors⟩
  else graph

/-- Lines 431-446 of `_upload_graph_and_snapshots`: issue the graph upload
(generating a new anchoring exactly when `gen` says the anchor list was
empty), then run the waypoint differential-sync loop and — only when it raised
nothing — the edge differential-sync loop. -/
def syncStep (wdict edict : List (String × Snapshot)) (gen : Bool) (resp : UploadResponse) :
    Except SpotErr Unit × List Req :=
  match (uploadUnknown wdict Req.uploadWaypointSnapshot resp.unknown_waypoint_snapshot_ids).fst with
  | Except.error e =>
    (Except.error e,
     Req.uploadGraph gen ::
       (uploadUnknown wdict Req.uploadWaypointSnapshot resp.unknown_waypoint_snapshot_ids).snd)
  | Except.ok _ =>
    ((uploadUnknown edict Req.uploadEdgeSnapshot resp.unknown_edge_snapshot_ids).fst,
     Req.uploadGraph gen ::
       ((uploadUnknown wdict Req.uploadWaypointSnapshot resp.unknown_waypoint_snapshot_ids).snd ++
        (uploadUnknown edict Req.uploadEdgeSnapshot resp.unknown_edge_snapshot_ids).snd))

/-- `_upload_graph_and_snapshots`: apply the optional per-edge transform, load
the waypoint and edge snapshots (a load failure is fatal and aborts before any
upload request), upload the graph, then upload the snapshots the response
reported unknown.  `wfiles`/`efiles` model the `waypoint_snapshots`/
`edge_snapshots` directories; `resp` the external service's reply to the graph
upload. -/
def upload_graph_and_snapshots (wfiles efiles : String → Option Snapshot)
    (graph : Graph) (disableAlternateRouteFinding : Bool) (resp : UploadResponse) :
    Except SpotErr Unit × List Req :=
  match loadSnapshots wfiles
      ((applyDisableAlt graph disableAlternateRouteFinding).waypoints.map Waypoint.snapshot_id) [] with
  | Except.error e => (Except.error e, [])
  | Except.ok wdict =>
    match loadSnapshots efiles
        ((applyDisableAlt graph disableAlternateRouteFinding).edges.map Edge.snapshot_id) [] with
    | Except.error e => (Except.error e, [])
    | Except.ok edict =>
      syncStep wdict edict (applyDisableAlt graph disableAlternateRouteFinding).anchors.isEmpty resp

/-- `upload_autowalk`: upload the graph and snapshots, then load the serialized
walk file (`missions/autogenerated.walk`, fatal when missing) and send it via
`load_autowalk`.  `walkFile` models that file's presence. -/
def upload_autowalk (wfiles efiles : String → Option Snapshot) (walkFile : Option Unit)
    (graph : Graph) (disableAlternateRouteFinding : Bool) (resp : UploadResponse) :
    Except SpotErr Unit × List Req :=
  match (upload_graph_and_snapshots wfiles efiles graph disableAlternateRouteFinding resp).fst with
  | Except.error e =>
    (Except.error e,
     (upload_graph_and_snapshots wfiles efiles graph disableAlternateRouteFinding resp).snd)
  | Except.ok _ =>
    match walkFile with
    | Option.none =>
      (Except.error (SpotErr.fileMissing "missions/autogenerated.walk"),
       (upload_graph_and_snapshots wfiles efiles graph disableAlternateRouteFinding resp).snd)
    | some _ =>
      (Except.ok (),
       (upload_graph_and_snapshots wfiles efiles graph disableAlternateRouteFinding resp).snd ++
         [Req.loadAutowalk])

/-- A `LeaseKeepAlive` object: the code only asks whether it `is_alive()` and
shuts it down. -/
structure LeaseKA where
  alive : Bool
deriving DecidableEq

/-- The session state of `SpotClient` together with the external behaviour the
session-lifecycle methods observe:
* `initialized` — whether `__init__` ran to the point of setting `robot_id`
  (the guard `hasattr(self, "robot_id")` in `shutdown`);
* `lease_keep_alive` — `None` until `acquire`/`toggle_lease` builds one;
* `powered_on` — the client-side flag `self.powered_on`;
* `poweredOnExt` — what `robot.is_powered_on()` currently reports;
* `powerOnConverges` / `powerOffConverges` — whether the robot converges to
  the target state within the 20-second blocking call;
* `timeSyncFails` — whether `time_sync.wait_for_sync()` raises;
* `leaseAcquireFails` — whether constructing the `LeaseKeepAlive` raises. -/
structure Session where
  initialized : Bool
  lease_keep_alive : Option LeaseKA
  powered_on : Bool
  poweredOnExt : Bool
  powerOnConverges : Bool
  powerOffConverges : Bool
  timeSyncFails : Bool
  leaseAcquireFails : Bool
deriving DecidableEq

/-- Whether the lease is currently held: a keep-alive exists and is alive. -/
def leaseHeld (s : Session) : Bool :=
  match s.lease_keep_alive with
  | Option.none => false
  | some l => l.alive

/-- Replace the session's keep-alive reference. -/
def withLease (s : Session) (l : Option LeaseKA) : Session :=
  ⟨s.initialized, l, s.powered_on, s.poweredOnExt, s.powerOnConverges, s.powerOffConverges,
   s.timeSyncFails, s.leaseAcquireFails⟩

/-- Session state after a successful `robot.power_on`: the flag and the
externally reported state are both on. -/
def afterPowerOn (s : Session) : Session :=
  ⟨s.initialized, s.lease_keep_alive, true, true, s.powerOnConverges, s.powerOffConverges,
   s.timeSyncFails, s.leaseAcquireFails⟩

/-- Session state after a successful `robot.power_off`. -/
def afterPowerOff (s : Session) : Session :=
  ⟨s.initialized, s.lease_keep_alive, false, false, s.powerOnConverges, s.powerOffConverges,
   s.timeSyncFails, s.leaseAcquireFails⟩

/-- `power_on`: return immediately when `robot.is_powered_on()`; otherwise
issue the blocking power-on RPC with `timeout_sec=20` and assert convergence
(`assert self.robot.is_powered_on(), "Failed to power on"`). -/
def power_on (s : Session) : Except SpotErr Session × List Req :=
  if s.poweredOnExt then
    (Except.ok s, [])
  else if s.powerOnConverges then
    (Except.ok (afterPowerOn s), [Req.powerOnRpc 20])
  else
    (Except.error (SpotErr.assertionError "Failed to power on"), [Req.powerOnRpc 20])

/-- `power_off`: the symmetric operation. -/
def power_off (s : Session) : Except SpotErr Session × List Req :=
  if ¬ s.poweredOnExt then
    (Except.ok s, [])
  else if s.powerOffConverges then
    (Except.ok (afterPowerOff s), [Req.powerOffRpc 20])
  else
    (Except.error (SpotErr.assertionError "Failed to power off"), [Req.powerOffRpc 20])

/-- `release`: a no-op when the keep-alive is `None` or not alive; otherwise
shut the keep-alive down (returning the lease). -/
def release (s : Session) : Session × List Req :=
  match s.lease_keep_alive with
  | Option.none => (s, [])
  | some l =>
    if ¬ l.alive then (s, [])
    else (withLease s (some ⟨false⟩), [Req.leaseShutdown])

/-- `acquire`: wait for time sync (connection-level failures propagate), return
`True` at once when the keep-alive is already alive, otherwise attempt to
construct a `LeaseKeepAlive`, converting any failure to `False`. -/
def acquire (s : Session) : Except SpotErr (Bool × Session) × List Req :=
  if s.timeSyncFails then
    (Except.error SpotErr.connectionError, [])
  else if leaseHeld s then
    (Except.ok (true, s), [])
  else if s.leaseAcquireFails then
    (Except.ok (false, s), [Req.acquireLease])
  else
    (Except.ok (true, withLease s (some ⟨true⟩)), [Req.acquireLease])

/-- `shutdown` (lines 181-200): return at once when `__init__` never reached
`robot_id`; otherwise evaluate `self.lease_keep_alive.is_alive()` — an
`AttributeError` when the keep-alive is `None` — and, when alive, power off and
release before stopping time sync. -/
def shutdown (s : Session) : Except SpotErr Session × List Req :=
  if ¬ s.initialized then
    (Except.ok s, [])
  else
    match s.lease_keep_alive with
    | Option.none => (Except.error SpotErr.attributeError, [])
    | some l =>
      if l.alive then
        match power_off s with
        | (Except.error e, reqs) => (Except.error e, reqs)
        | (Except.ok s1, reqs) =>
          match release s1 with
          | (s2, reqs2) => (Except.ok s2, reqs ++ reqs2 ++ [Req.stopTimeSync])
      else
        (Except.ok s, [Req.stopTimeSync])

/-- Errors a command thunk can raise: the RPC-layer errors `ResponseError` and
`RpcError` that `try_grpc` catches, and anything else (which it does not). -/
inductive CmdErr
  | responseError (msg : String)
  | rpcError (msg : String)
  | otherError (msg : String)
deriving DecidableEq

/-- Whether an error is one of the RPC-layer classes `try_grpc` catches. -/
def isRpcLayer : CmdErr → Bool
  | CmdErr.responseError _ => true
  | CmdErr.rpcError _ => true
  | CmdErr.otherError _ => false

/-- `try_grpc`: run the thunk; catch `ResponseError`/`RpcError`, log and return
`None`; let every other exception propagate. -/
def try_grpc {α : Type} (thunk : Unit → Except CmdErr α) : Except CmdErr (Option α) :=
  match thunk () with
  | Except.ok a => Except.ok (some a)
  | Except.error (CmdErr.responseError _) => Except.ok Option.none
  | Except.error (CmdErr.rpcError _) => Except.ok Option.none
  | Except.error e => Except.error e

/-- `_start_robot_command`: submit the built command through `try_grpc`.
`cmdResult` is the outcome of the underlying `robot_command` RPC (for example
`Except.error (CmdErr.responseError ...)` when the lease is not held). -/
def start_robot_command (desc : String) (cmdResult : Except CmdErr Unit) :
    Except CmdErr (Option Unit) :=
  let _ := desc
  try_grpc (fun _ => cmdResult)

/-- `safe_power_off` command. -/
def safe_power_off (r : Except CmdErr Unit) : Except CmdErr (Option Unit) :=
  start_robot_command "safe_power_off" r

/-- `sit` command. -/
def sit (r : Except CmdErr Unit) : Except CmdErr (Option Unit) :=
  start_robot_command "sit" r

/-- `stand` command. -/
def stand (r : Except CmdErr Unit) : Except CmdErr (Option Unit) :=
  start_robot_command "stand" r

/-- `move_forward` (a velocity command through `_velocity_cmd_helper`). -/
def move_forward (r : Except CmdErr Unit) : Except CmdErr (Option Unit) :=
  start_robot_command "move_forward" r

/-- `move_backward` velocity command. -/
def move_backward (r : Except CmdErr Unit) : Except CmdErr (Option Unit) :=
  start_robot_command "move_backward" r

/-- `strafe_left` velocity command. -/
def strafe_left (r : Except CmdErr Unit) : Except CmdErr (Option Unit) :=
  start_robot_command "strafe_left" r

/-- `strafe_right` velocity command. -/
def strafe_right (r : Except CmdErr Unit) : Except CmdErr (Option Unit) :=
  start_robot_command "strafe_right" r

/-- `turn_left` velocity command. -/
def turn_left (r : Except CmdErr Unit) : Except CmdErr (Option Unit) :=
  start_robot_command "turn_left" r

/-- `turn_right` velocity command. -/
def turn_right (r : Except CmdErr Unit) : Except CmdErr (Option Unit) :=
  start_robot_command "turn_right" r

/-- `stop` command. -/
def stop (r : Except CmdErr Unit) : Except CmdErr (Option Unit) :=
  start_robot_command "stop" r

/-- `stow` command. -/
def stow (r : Except CmdErr Unit) : Except CmdErr (Option Unit) :=
  start_robot_command "stow" r

/-- `unstow` command (the source passes the description string "stow"). -/
def unstow (r : Except CmdErr Unit) : Except CmdErr (Option Unit) :=
  start_robot_command "stow" r

/-- `return_to_origin` trajectory command. -/
def return_to_origin (r : Except CmdErr Unit) : Except CmdErr (Option Unit) :=
  start_robot_command "fwd_and_rotate" r

/-- `scan_pose` stand command with raised body height. -/
def scan_pose (r : Except CmdErr Unit) : Except CmdErr (Option Unit) :=
  start_robot_command "stand" r

/-! ### Theorems -/

/-- C1 counterexample: called while the mission is RUNNING, with the external
status transitioning to SUCCESS — which is not STOPPED — `stop_autowalk`
returns `true`, where the claim requires `false`. -/
theorem c1_counterexample :
    stop_autowalk ⟨MissionStatus.sRunning, 0, [], ""⟩ ⟨MissionStatus.sSuccess, 0, [], ""⟩ =
      (Except.ok true, [Req.stopMission]) ∧
    MissionStatus.sSuccess ≠ MissionStatus.sStopped := by
  exact ⟨rfl, by decide⟩

/-- C1 (amended): `stop_autowalk` raises `NoMissionRunningException` without
issuing a stop request unless the current status is RUNNING or PAUSED;
otherwise it issues the stop request and returns `true` exactly when the
re-polled status is SUCCESS or STOPPED. -/
theorem c1_stop_autowalk_spec (st0 st1 : MissionState) :
    ((st0.status = MissionStatus.sRunning ∨ st0.status = MissionStatus.sPaused) →
      stop_autowalk st0 st1 =
        (Except.ok (decide (st1.status = MissionStatus.sSuccess ∨ st1.status = MissionStatus.sStopped)),
         [Req.stopMission])) ∧
    (¬(st0.status = MissionStatus.sRunning ∨ st0.status = MissionStatus.sPaused) →
      stop_autowalk st0 st1 =
        (Except.error (SpotErr.noMissionRunningException ("Mission status: " ++ statusName st0.status)),
         [])) := by
  constructor
  · intro h
    simp [stop_autowalk, h]
  · intro h
    simp [stop_autowalk, h]

/-- C1 witness: a RUNNING mission whose status transitions to STOPPED makes
`stop_autowalk` issue the stop request and return `true`. -/
theorem c1_witness :
    stop_autowalk ⟨MissionStatus.sRunning, 0, [], ""⟩ ⟨MissionStatus.sStopped, 0, [], ""⟩ =
      (Except.ok true, [Req.stopMission]) := by
  have h := (c1_stop_autowalk_spec ⟨MissionStatus.sRunning, 0, [], ""⟩
    ⟨MissionStatus.sStopped, 0, [], ""⟩).1 (Or.inl rfl)
  simpa using h

/-- C3: when the external mission state reports the sentinel `mission_id = -1`,
`start_autowalk` raises `AutowalkStartError` and no play request is issued
(with or without the localization step). -/
theorem c3_start_autowalk_no_mission (d : Bool) (st0 : MissionState)
    (script : List MissionState) (h : st0.missionId = -1) :
    start_autowalk d st0 script =
      some (Except.error (SpotErr.autowalkStartError "No mission is loaded. Please upload a mission first."),
            if d then [Req.downloadGraph, Req.setLocalization] else []) ∧
    Req.play ∉ (if d then [Req.downloadGraph, Req.setLocalization] else ([] : List Req)) := by
  constructor
  · simp [start_autowalk, h]
  · cases d <;> decide

/-- C3 witness: a concrete state with `mission_id = -1` and localization
requested. -/
theorem c3_witness :
    start_autowalk true ⟨MissionStatus.sNone, -1, [], ""⟩ [] =
      some (Except.error (SpotErr.autowalkStartError "No mission is loaded. Please upload a mission first."),
            [Req.downloadGraph, Req.setLocalization]) ∧
    Req.play ∉ [Req.downloadGraph, Req.setLocalization] := by
  have h := c3_start_autowalk_no_mission true ⟨MissionStatus.sNone, -1, [], ""⟩ [] rfl
  simpa using h

/-- C4: `pause_autowalk` raises `NoMissionRunningException` without issuing a
pause request whenever the current status is not exactly RUNNING; when it is
RUNNING it issues the pause request and returns `true` exactly when the
re-polled status is PAUSED. -/
theorem c4_pause_autowalk_spec (st0 st1 : MissionState) :
    (st0.status ≠ MissionStatus.sRunning →
      pause_autowalk st0 st1 =
        (Except.error (SpotErr.noMissionRunningException ("Mission status: " ++ statusName st0.status)),
         [])) ∧
    (st0.status = MissionStatus.sRunning →
      pause_autowalk st0 st1 =
        (Except.ok (decide (st1.status = MissionStatus.sPaused)), [Req.pauseMission])) := by
  constructor
  · intro h
    simp [pause_autowalk, h]
  · intro h
    simp [pause_autowalk, h]

/-- C4 witness: pausing a PAUSED (not RUNNING) mission raises, issuing no
request; pausing a RUNNING mission that re-polls as PAUSED returns `true`. -/
theorem c4_witness :
    pause_autowalk ⟨MissionStatus.sPaused, 0, [], ""⟩ ⟨MissionStatus.sPaused, 0, [], ""⟩ =
      (Except.error (SpotErr.noMissionRunningException "Mission status: STATUS_PAUSED"), []) ∧
    pause_autowalk ⟨MissionStatus.sRunning, 0, [], ""⟩ ⟨MissionStatus.sPaused, 0, [], ""⟩ =
      (Except.ok true, [Req.pauseMission]) := by
  constructor
  · have h := (c4_pause_autowalk_spec ⟨MissionStatus.sPaused, 0, [], ""⟩
      ⟨MissionStatus.sPaused, 0, [], ""⟩).1 (by decide)
    simpa [statusName] using h
  · have h := (c4_pause_autowalk_spec ⟨MissionStatus.sRunning, 0, [], ""⟩
      ⟨MissionStatus.sPaused, 0, [], ""⟩).2 rfl
    simpa using h

/-- C5: in the retry loop of `start_autowalk` — (1) at a loop head with status
NONE or PAUSED and pending questions, the loop returns `false` issuing no
request and raising nothing; (2) when the state re-polled after a play request
has status ERROR or FAILURE, the loop raises `AutowalkStartError`; (3) when
the loop condition fails the loop exits returning `true` exactly when the
final status is RUNNING or PAUSED. -/
theorem c5_start_loop_spec (st st1 : MissionState) (script rest : List MissionState) :
    ((st.status = MissionStatus.sNone ∨ st.status = MissionStatus.sPaused) →
      st.questions ≠ [] →
      startLoop st script = some (Except.ok false, [])) ∧
    ((st.status = MissionStatus.sNone ∨ st.status = MissionStatus.sPaused) →
      st.questions = [] →
      (st1.status = MissionStatus.sError ∨ st1.status = MissionStatus.sFailure) →
      startLoop st (st1 :: rest) =
        some (Except.error (SpotErr.autowalkStartError ("error starting autowalk: " ++ st1.errMsg)),
              [Req.play])) ∧
    (¬(st.status = MissionStatus.sNone ∨ st.status = MissionStatus.sPaused) →
      startLoop st script =
        some (Except.ok (decide (st.status = MissionStatus.sRunning ∨ st.status = MissionStatus.sPaused)),
              [])) := by
  refine ⟨?_, ?_, ?_⟩
  · intro h hq
    rw [startLoop.eq_def]
    simp [h, hq]
  · intro h hq he
    rw [startLoop.eq_def]
    simp [h, hq, he]
  · intro h
    rw [startLoop.eq_def]
    simp [h]

/-- C5 witness: the three loop behaviours at concrete states — pending
questions return `false` with no request, an ERROR re-poll raises, and a
RUNNING loop-exit state returns `true`. -/
theorem c5_witness :
    startLoop ⟨MissionStatus.sNone, 0, ["q"], ""⟩ [] = some (Except.ok false, []) ∧
    startLoop ⟨MissionStatus.sNone, 0, [], ""⟩ [⟨MissionStatus.sError, 0, [], "boom"⟩] =
      some (Except.error (SpotErr.autowalkStartError "error starting autowalk: boom"), [Req.play]) ∧
    startLoop ⟨MissionStatus.sRunning, 0, [], ""⟩ [] = some (Except.ok true, []) := by
  refine ⟨?_, ?_, ?_⟩
  · exact (c5_start_loop_spec ⟨MissionStatus.sNone, 0, ["q"], ""⟩ ⟨MissionStatus.sNone, 0, [], ""⟩
      [] []).1 (Or.inl rfl) (by decide)
  · exact (c5_start_loop_spec ⟨MissionStatus.sNone, 0, [], ""⟩ ⟨MissionStatus.sError, 0, [], "boom"⟩
      [⟨MissionStatus.sError, 0, [], "boom"⟩] []).2.1 (Or.inl rfl) rfl (Or.inl rfl)
  · have h := (c5_start_loop_spec ⟨MissionStatus.sRunning, 0, [], ""⟩ ⟨MissionStatus.sRunning, 0, [], ""⟩
      [] []).2.2 (by decide)
    simpa using h

/-- Helper: the differential-sync loop succeeds exactly when every id the
response reported unknown has an entry in the loaded dictionary. -/
theorem uploadUnknown_fst_ok_iff (d : List (String × Snapshot)) (mk : String → Req)
    (ids : List String) :
    (uploadUnknown d mk ids).fst = Except.ok () ↔
      ∀ sid ∈ ids, (dictLookup d sid).isSome = true := by
  induction ids with
  | nil => simp [uploadUnknown]
  | cons sid rest ih =>
    cases hl : dictLookup d sid with
    | none => simp [uploadUnknown, hl]
    | some snap => simp [uploadUnknown, hl, ih]

/-- Helper: on success, the requests issued by the differential-sync loop are
exactly one upload per unknown id, in response order. -/
theorem uploadUnknown_ok_snd (d : List (String × Snapshot)) (mk : String → Req)
    (ids : List String) (h : (uploadUnknown d mk ids).fst = Except.ok ()) :
    (uploadUnknown d mk ids).snd = List.map mk ids := by
  induction ids with
  | nil => simp [uploadUnknown]
  | cons sid rest ih =>
    cases hl : dictLookup d sid with
    | none => simp [uploadUnknown, hl] at h
    | some snap =>
      simp only [uploadUnknown, hl] at h ⊢
      rw [List.map_cons, ih h]

/-- Helper: every request the differential-sync loop issues, on any path, is
an upload of an id from the unknown list. -/
theorem uploadUnknown_snd_subset (d : List (String × Snapshot)) (mk : String → Req)
    (ids : List String) :
    ∀ x ∈ (uploadUnknown d mk ids).snd, ∃ sid ∈ ids, x = mk sid := by
  induction ids with
  | nil => simp [uploadUnknown]
  | cons sid rest ih =>
    cases hl : dictLookup d sid with
    | none => simp [uploadUnknown, hl]
    | some snap =>
      intro x hx
      simp only [uploadUnknown, hl] at hx
      rcases List.mem_cons.mp hx with h | h
      · exact ⟨sid, List.mem_cons_self sid rest, h⟩
      · obtain ⟨sid2, hmem, hx2⟩ := ih x h
        exact ⟨sid2, List.mem_cons_of_mem sid hmem, hx2⟩

/-- Helper: the differential-sync loop fails with a `KeyError` at the FIRST
unknown id that has no entry in the loaded dictionary. -/
theorem uploadUnknown_first_missing (d : List (String × Snapshot)) (mk : String → Req)
    (ids : List String) (sid : String)
    (h : ids.find? (fun x => (dictLookup d x).isNone) = some sid) :
    (uploadUnknown d mk ids).fst = Except.error (SpotErr.keyError sid) := by
  induction ids with
  | nil => simp at h
  | cons a rest ih =>
    cases hl : dictLookup d a with
    | none =>
      rw [List.find?_cons_of_pos _ (by simp [hl])] at h
      obtain rfl := Option.some.inj h
      simp [uploadUnknown, hl]
    | some snap =>
      rw [List.find?_cons_of_neg _ (by simp [hl])] at h
      simp only [uploadUnknown, hl]
      exact ih h

/-- C10: the differential-sync step of `_upload_graph_and_snapshots` is total
exactly under the precondition that every snapshot id the upload response
reports unknown has an entry in the locally built snapshot dictionary; at the
first unknown id without an entry (for example an empty `snapshot_id` skipped
at load time, or a snapshot file storing a different id than the graph
references) the unguarded lookup fails with a `KeyError` instead of skipping
or re-loading. -/
theorem c10_sync_totality (d : List (String × Snapshot)) (mk : String → Req)
    (ids : List String) :
    ((uploadUnknown d mk ids).fst = Except.ok () ↔
      ∀ sid ∈ ids, (dictLookup d sid).isSome = true) ∧
    (∀ sid, ids.find? (fun x => (dictLookup d x).isNone) = some sid →
      (uploadUnknown d mk ids).fst = Except.error (SpotErr.keyError sid)) :=
  ⟨uploadUnknown_fst_ok_iff d mk ids,
   fun sid h => uploadUnknown_first_missing d mk ids sid h⟩

/-- C10 witness: the graph references snapshot id "a" but the file stores id
"b", so the loaded dictionary is keyed by "b"; when the server reports "a"
unknown the sync step fails with `KeyError "a"`. -/
theorem c10_witness :
    (uploadUnknown [("b", ⟨"b"⟩)] Req.uploadWaypointSnapshot ["a"]).fst =
      Except.error (SpotErr.keyError "a") ∧
    loadSnapshots (fun s => if s = "a" then some ⟨"b"⟩ else Option.none) ["a"] [] =
      Except.ok [("b", ⟨"b"⟩)] := by
  constructor
  · exact (c10_sync_totality [("b", ⟨"b"⟩)] Req.uploadWaypointSnapshot ["a"]).2 "a" (by decide)
  · rfl

/-- Helper: `syncStep` when the waypoint sync loop raised. -/
theorem syncStep_eq_error (wdict edict : List (String × Snapshot)) (gen : Bool)
    (resp : UploadResponse) (e : SpotErr)
    (h : (uploadUnknown wdict Req.uploadWaypointSnapshot resp.unknown_waypoint_snapshot_ids).fst =
      Except.error e) :
    syncStep wdict edict gen resp =
      (Except.error e,
       Req.uploadGraph gen ::
         (uploadUnknown wdict Req.uploadWaypointSnapshot resp.unknown_waypoint_snapshot_ids).snd) := by
  unfold syncStep
  rw [h]

/-- Helper: `syncStep` when the waypoint sync loop succeeded. -/
theorem syncStep_eq_ok (wdict edict : List (String × Snapshot)) (gen : Bool)
    (resp : UploadResponse)
    (h : (uploadUnknown wdict Req.uploadWaypointSnapshot resp.unknown_waypoint_snapshot_ids).fst =
      Except.ok ()) :
    syncStep wdict edict gen resp =
      ((uploadUnknown edict Req.uploadEdgeSnapshot resp.unknown_edge_snapshot_ids).fst,
       Req.uploadGraph gen ::
         ((uploadUnknown wdict Req.uploadWaypointSnapshot resp.unknown_waypoint_snapshot_ids).snd ++
          (uploadUnknown edict Req.uploadEdgeSnapshot resp.unknown_edge_snapshot_ids).snd)) := by
  unfold syncStep
  rw [h]

/-- Helper: the request trace of the upload-and-sync step — on success it is
the graph upload followed by exactly one snapshot upload per unknown id, in
response order; on every path, a waypoint (edge) snapshot upload only ever
carries an id from the unknown waypoint (edge) list. -/
theorem syncStep_spec (wdict edict : List (String × Snapshot)) (gen : Bool)
    (resp : UploadResponse) :
    ((syncStep wdict edict gen resp).fst = Except.ok () →
      (syncStep wdict edict gen resp).snd =
        Req.uploadGraph gen ::
          (resp.unknown_waypoint_snapshot_ids.map Req.uploadWaypointSnapshot ++
           resp.unknown_edge_snapshot_ids.map Req.uploadEdgeSnapshot)) ∧
    (∀ sid, Req.uploadWaypointSnapshot sid ∈ (syncStep wdict edict gen resp).snd →
      sid ∈ resp.unknown_waypoint_snapshot_ids) ∧
    (∀ sid, Req.uploadEdgeSnapshot sid ∈ (syncStep wdict edict gen resp).snd →
      sid ∈ resp.unknown_edge_snapshot_ids) := by
  have hwsub := uploadUnknown_snd_subset wdict Req.uploadWaypointSnapshot
    resp.unknown_waypoint_snapshot_ids
  have hesub := uploadUnknown_snd_subset edict Req.uploadEdgeSnapshot
    resp.unknown_edge_snapshot_ids
  cases hfst : (uploadUnknown wdict Req.uploadWaypointSnapshot
      resp.unknown_waypoint_snapshot_ids).fst with
  | error e =>
    rw [syncStep_eq_error wdict edict gen resp e hfst]
    refine ⟨?_, ?_, ?_⟩
    · intro hok
      simp at hok
    · intro sid hmem
      rcases List.mem_cons.mp hmem with h | h
      · exact absurd h (by simp)
      · obtain ⟨sid2, hmem2, heq⟩ := hwsub _ h
        simp only [Req.uploadWaypointSnapshot.injEq] at heq
        exact heq ▸ hmem2
    · intro sid hmem
      rcases List.mem_cons.mp hmem with h | h
      · exact absurd h (by simp)
      · obtain ⟨sid2, hmem2, heq⟩ := hwsub _ h
        simp at heq
  | ok u =>
    cases u
    have hwreqs := uploadUnknown_ok_snd wdict Req.uploadWaypointSnapshot
      resp.unknown_waypoint_snapshot_ids hfst
    rw [syncStep_eq_ok wdict edict gen resp hfst]
    refine ⟨?_, ?_, ?_⟩
    · intro hok
      have hereqs := uploadUnknown_ok_snd edict Req.uploadEdgeSnapshot
        resp.unknown_edge_snapshot_ids hok
      rw [hwreqs, hereqs]
    · intro sid hmem
      rcases List.mem_cons.mp hmem with h | h
      · exact absurd h (by simp)
      · rcases List.mem_append.mp h with h2 | h2
        · obtain ⟨sid2, hmem2, heq⟩ := hwsub _ h2
          simp only [Req.uploadWaypointSnapshot.injEq] at heq
          exact heq ▸ hmem2
        · obtain ⟨sid2, hmem2, heq⟩ := hesub _ h2
          simp at heq
    · intro sid hmem
      rcases List.mem_cons.mp hmem with h | h
      · exact absurd h (by simp)
      · rcases List.mem_append.mp h with h2 | h2
        · obtain ⟨sid2, hmem2, heq⟩ := hwsub _ h2
          simp at heq
        · obtain ⟨sid2, hmem2, heq⟩ := hesub _ h2
          simp only [Req.uploadEdgeSnapshot.injEq] at heq
          exact heq ▸ hmem2

/-- Helper: `_upload_graph_and_snapshots` when the waypoint snapshot load
fails. -/
theorem upload_gs_eq_werror (wf ef : String → Option Snapshot) (g : Graph) (alt : Bool)
    (resp : UploadResponse) (e : SpotErr)
    (h : loadSnapshots wf ((applyDisableAlt g alt).waypoints.map Waypoint.snapshot_id) [] =
      Except.error e) :
    upload_graph_and_snapshots wf ef g alt resp = (Except.error e, []) := by
  unfold upload_graph_and_snapshots
  rw [h]

/-- Helper: `_upload_graph_and_snapshots` when the edge snapshot load fails. -/
theorem upload_gs_eq_eerror (wf ef : String → Option Snapshot) (g : Graph) (alt : Bool)
    (resp : UploadResponse) (wdict : List (String × Snapshot)) (e : SpotErr)
    (hw : loadSnapshots wf ((applyDisableAlt g alt).waypoints.map Waypoint.snapshot_id) [] =
      Except.ok wdict)
    (he : loadSnapshots ef ((applyDisableAlt g alt).edges.map Edge.snapshot_id) [] =
      Except.error e) :
    upload_graph_and_snapshots wf ef g alt resp = (Except.error e, []) := by
  unfold upload_graph_and_snapshots
  rw [hw, he]

/-- Helper: `_upload_graph_and_snapshots` when both loads succeed. -/
theorem upload_gs_eq_ok (wf ef : String → Option Snapshot) (g : Graph) (alt : Bool)
    (resp : UploadResponse) (wdict edict : List (String × Snapshot))
    (hw : loadSnapshots wf ((applyDisableAlt g alt).waypoints.map Waypoint.snapshot_id) [] =
      Except.ok wdict)
    (he : loadSnapshots ef ((applyDisableAlt g alt).edges.map Edge.snapshot_id) [] =
      Except.ok edict) :
    upload_graph_and_snapshots wf ef g alt resp =
      syncStep wdict edict (applyDisableAlt g alt).anchors.isEmpty resp := by
  unfold upload_graph_and_snapshots
  rw [hw, he]

/-- Helper: the request trace of `_upload_graph_and_snapshots`, lifted from
`syncStep_spec` through the load phase. -/
theorem upload_gs_spec (wf ef : String → Option Snapshot) (g : Graph) (alt : Bool)
    (resp : UploadResponse) :
    ((upload_graph_and_snapshots wf ef g alt resp).fst = Except.ok () →
      (upload_graph_and_snapshots wf ef g alt resp).snd =
        Req.uploadGraph (applyDisableAlt g alt).anchors.isEmpty ::
          (resp.unknown_waypoint_snapshot_ids.map Req.uploadWaypointSnapshot ++
           resp.unknown_edge_snapshot_ids.map Req.uploadEdgeSnapshot)) ∧
    (∀ sid, Req.uploadWaypointSnapshot sid ∈ (upload_graph_and_snapshots wf ef g alt resp).snd →
      sid ∈ resp.unknown_waypoint_snapshot_ids) ∧
    (∀ sid, Req.uploadEdgeSnapshot sid ∈ (upload_graph_and_snapshots wf ef g alt resp).snd →
      sid ∈ resp.unknown_edge_snapshot_ids) := by
  cases hw : loadSnapshots wf ((applyDisableAlt g alt).waypoints.map Waypoint.snapshot_id) [] with
  | error e =>
    rw [upload_gs_eq_werror wf ef g alt resp e hw]
    simp
  | ok wdict =>
    cases he : loadSnapshots ef ((applyDisableAlt g alt).edges.map Edge.snapshot_id) [] with
    | error e =>
      rw [upload_gs_eq_eerror wf ef g alt resp wdict e hw he]
      simp
    | ok edict =>
      rw [upload_gs_eq_ok wf ef g alt resp wdict edict hw he]
      exact syncStep_spec wdict edict (applyDisableAlt g alt).anchors.isEmpty resp

/-- C2: for every upload via `upload_autowalk`, after the graph is uploaded
the snapshots transferred are exactly those whose ids the upload response
reported unknown — on success the request trace is the graph upload, one
waypoint snapshot upload per unknown waypoint id and one edge snapshot upload
per unknown edge id (in response order), then the walk upload; and on every
path no snapshot with an id outside the unknown lists is transferred. -/
theorem c2_upload_only_unknown (wf ef : String → Option Snapshot) (walkFile : Option Unit)
    (g : Graph) (alt : Bool) (resp : UploadResponse) :
    ((upload_autowalk wf ef walkFile g alt resp).fst = Except.ok () →
      (upload_autowalk wf ef walkFile g alt resp).snd =
        (Req.uploadGraph (applyDisableAlt g alt).anchors.isEmpty ::
          (resp.unknown_waypoint_snapshot_ids.map Req.uploadWaypointSnapshot ++
           resp.unknown_edge_snapshot_ids.map Req.uploadEdgeSnapshot)) ++ [Req.loadAutowalk]) ∧
    (∀ sid, Req.uploadWaypointSnapshot sid ∈ (upload_autowalk wf ef walkFile g alt resp).snd →
      sid ∈ resp.unknown_waypoint_snapshot_ids) ∧
    (∀ sid, Req.uploadEdgeSnapshot sid ∈ (upload_autowalk wf ef walkFile g alt resp).snd →
      sid ∈ resp.unknown_edge_snapshot_ids) := by
  have hgs := upload_gs_spec wf ef g alt resp
  cases hfst : (upload_graph_and_snapshots wf ef g alt resp).fst with
  | error e =>
    have heq : upload_autowalk wf ef walkFile g alt resp =
        (Except.error e, (upload_graph_and_snapshots wf ef g alt resp).snd) := by
      unfold upload_autowalk
      rw [hfst]
    rw [heq]
    refine ⟨?_, ?_, ?_⟩
    · intro hok
      simp at hok
    · exact hgs.2.1
    · exact hgs.2.2
  | ok u =>
    cases u
    cases walkFile with
    | none =>
      have heq : upload_autowalk wf ef Option.none g alt resp =
          (Except.error (SpotErr.fileMissing "missions/autogenerated.walk"),
           (upload_graph_and_snapshots wf ef g alt resp).snd) := by
        unfold upload_autowalk
        rw [hfst]
      rw [heq]
      refine ⟨?_, ?_, ?_⟩
      · intro hok
        simp at hok
      · exact hgs.2.1
      · exact hgs.2.2
    | some w =>
      have heq : upload_autowalk wf ef (some w) g alt resp =
          (Except.ok (),
           (upload_graph_and_snapshots wf ef g alt resp).snd ++ [Req.loadAutowalk]) := by
        unfold upload_autowalk
        rw [hfst]
      rw [heq]
      refine ⟨?_, ?_, ?_⟩
      · intro _
        rw [hgs.1 hfst]
      · intro sid hmem
        rcases List.mem_append.mp hmem with h | h
        · exact hgs.2.1 sid h
        · simp at h
      · intro sid hmem
        rcases List.mem_append.mp hmem with h | h
        · exact hgs.2.2 sid h
        · simp at h

/-- C2 witness: a concrete successful upload — one waypoint snapshot "a" and
one edge snapshot "e", both reported unknown — transfers exactly those two
snapshots between the graph upload and the walk upload. -/
theorem c2_witness :
    (upload_autowalk (fun s => if s = "a" then some ⟨"a"⟩ else Option.none)
        (fun s => if s = "e" then some ⟨"e"⟩ else Option.none) (some ())
        ⟨[⟨"a"⟩], [⟨"e", false⟩], []⟩ false ⟨["a"], ["e"]⟩).fst = Except.ok () ∧
    (upload_autowalk (fun s => if s = "a" then some ⟨"a"⟩ else Option.none)
        (fun s => if s = "e" then some ⟨"e"⟩ else Option.none) (some ())
        ⟨[⟨"a"⟩], [⟨"e", false⟩], []⟩ false ⟨["a"], ["e"]⟩).snd =
      [Req.uploadGraph true, Req.uploadWaypointSnapshot "a", Req.uploadEdgeSnapshot "e",
       Req.loadAutowalk] := by
  constructor
  · rfl
  · have h := (c2_upload_only_unknown (fun s => if s = "a" then some ⟨"a"⟩ else Option.none)
      (fun s => if s = "e" then some ⟨"e"⟩ else Option.none) (some ())
      ⟨[⟨"a"⟩], [⟨"e", false⟩], []⟩ false ⟨["a"], ["e"]⟩).1 rfl
    simpa [applyDisableAlt] using h

/-- C6: the code contradicts the claim — on a fully initialized session whose
lease was never acquired (`lease_keep_alive` is `None`), `shutdown` evaluates
`self.lease_keep_alive.is_alive()` and raises `AttributeError` instead of
returning safely; no request is issued and time sync is never stopped. -/
theorem c6_shutdown_crashes_without_lease :
    shutdown ⟨true, Option.none, false, false, false, false, false, false⟩ =
      (Except.error SpotErr.attributeError, []) := rfl

/-- C7: every RPC-layer error (`ResponseError` or `RpcError`) raised by the
underlying command call of a best-effort command method is caught by
`try_grpc` and converted to a `None` result; it is never propagated as an
exception, including when the lease is not held (rejection then surfaces as a
`ResponseError`, which is covered). -/
theorem c7_rpc_errors_converted (e : CmdErr) (h : isRpcLayer e = true) :
    safe_power_off (Except.error e) = Except.ok Option.none ∧
    sit (Except.error e) = Except.ok Option.none ∧
    stand (Except.error e) = Except.ok Option.none ∧
    move_forward (Except.error e) = Except.ok Option.none ∧
    move_backward (Except.error e) = Except.ok Option.none ∧
    strafe_left (Except.error e) = Except.ok Option.none ∧
    strafe_right (Except.error e) = Except.ok Option.none ∧
    turn_left (Except.error e) = Except.ok Option.none ∧
    turn_right (Except.error e) = Except.ok Option.none ∧
    stop (Except.error e) = Except.ok Option.none ∧
    stow (Except.error e) = Except.ok Option.none ∧
    unstow (Except.error e) = Except.ok Option.none ∧
    return_to_origin (Except.error e) = Except.ok Option.none ∧
    scan_pose (Except.error e) = Except.ok Option.none := by
  cases e with
  | responseError m =>
    simp [safe_power_off, sit, stand, move_forward, move_backward, strafe_left, strafe_right,
      turn_left, turn_right, stop, stow, unstow, return_to_origin, scan_pose,
      start_robot_command, try_grpc]
  | rpcError m =>
    simp [safe_power_off, sit, stand, move_forward, move_backward, strafe_left, strafe_right,
      turn_left, turn_right, stop, stow, unstow, return_to_origin, scan_pose,
      start_robot_command, try_grpc]
  | otherError m => simp [isRpcLayer] at h

/-- C7 witness: a transport error and a lease-rejection response error are both
converted to `None` results. -/
theorem c7_witness :
    safe_power_off (Except.error (CmdErr.rpcError "transport down")) = Except.ok Option.none ∧
    sit (Except.error (CmdErr.responseError "lease not held")) = Except.ok Option.none := by
  constructor
  · exact (c7_rpc_errors_converted (CmdErr.rpcError "transport down") rfl).1
  · exact (c7_rpc_errors_converted (CmdErr.responseError "lease not held") rfl).2.1

/-- C8: `power_on` is idempotent — when the robot already reports powered on
it returns at once issuing no power RPC, so a second consecutive call after
any successful call issues no RPC; otherwise it issues the blocking power RPC
with a 20-second timeout and signals a fatal assertion error when the state
does not converge to powered on. -/
theorem c8_power_on_idempotent (s : Session) :
    (s.poweredOnExt = true → power_on s = (Except.ok s, [])) ∧
    (∀ s1 reqs, power_on s = (Except.ok s1, reqs) → power_on s1 = (Except.ok s1, [])) ∧
    (s.poweredOnExt = false → s.powerOnConverges = true →
      power_on s = (Except.ok (afterPowerOn s), [Req.powerOnRpc 20])) ∧
    (s.poweredOnExt = false → s.powerOnConverges = false →
      power_on s = (Except.error (SpotErr.assertionError "Failed to power on"),
                    [Req.powerOnRpc 20])) := by
  refine ⟨?_, ?_, ?_, ?_⟩
  · intro h
    simp [power_on, h]
  · intro s1 reqs h
    cases hp : s.poweredOnExt with
    | true =>
      simp [power_on, hp] at h
      obtain ⟨h1, h2⟩ := h
      subst h1
      simp [power_on, hp]
    | false =>
      cases hc : s.powerOnConverges with
      | true =>
        simp [power_on, hp, hc] at h
        obtain ⟨h1, h2⟩ := h
        subst h1
        simp [power_on, afterPowerOn]
      | false => simp [power_on, hp, hc] at h
  · intro h1 h2
    simp [power_on, h1, h2]
  · intro h1 h2
    simp [power_on, h1, h2]

/-- C8 witness: with the robot already reporting powered on, `power_on` is a
no-op; and a second call after a successful power-on from off issues no RPC. -/
theorem c8_witness :
    power_on ⟨true, Option.none, true, true, true, true, false, false⟩ =
      (Except.ok ⟨true, Option.none, true, true, true, true, false, false⟩, []) ∧
    power_on (afterPowerOn ⟨true, Option.none, false, false, true, true, false, false⟩) =
      (Except.ok (afterPowerOn ⟨true, Option.none, false, false, true, true, false, false⟩), []) := by
  constructor
  · exact (c8_power_on_idempotent ⟨true, Option.none, true, true, true, true, false, false⟩).1 rfl
  · exact (c8_power_on_idempotent ⟨true, Option.none, false, false, true, true, false, false⟩).2.1
      (afterPowerOn ⟨true, Option.none, false, false, true, true, false, false⟩)
      [Req.powerOnRpc 20]
      ((c8_power_on_idempotent ⟨true, Option.none, false, false, true, true, false, false⟩).2.2.1 rfl rfl)

/-- C9: `acquire` is idempotent — when the lease keep-alive is already alive
it returns `True` without creating a new keep-alive or issuing an acquisition
request; when acquisition fails it returns `False` rather than raising; and a
time-sync (connection-level) failure before the acquisition attempt
propagates as an exception. -/
theorem c9_acquire_spec (s : Session) :
    (s.timeSyncFails = false → leaseHeld s = true →
      acquire s = (Except.ok (true, s), [])) ∧
    (s.timeSyncFails = false → leaseHeld s = false → s.leaseAcquireFails = true →
      acquire s = (Except.ok (false, s), [Req.acquireLease])) ∧
    (s.timeSyncFails = true → acquire s = (Except.error SpotErr.connectionError, [])) := by
  refine ⟨?_, ?_, ?_⟩
  · intro h1 h2
    simp [acquire, h1, h2]
  · intro h1 h2 h3
    simp [acquire, h1, h2, h3]
  · intro h1
    simp [acquire, h1]

/-- C9 witness: a session already holding the lease gets `True` with no
request; a session whose acquisition attempt fails gets `False` without an
exception; a time-sync failure raises. -/
theorem c9_witness :
    acquire ⟨true, some ⟨true⟩, false, false, false, false, false, false⟩ =
      (Except.ok (true, ⟨true, some ⟨true⟩, false, false, false, false, false, false⟩), []) ∧
    acquire ⟨true, Option.none, false, false, false, false, false, true⟩ =
      (Except.ok (false, ⟨true, Option.none, false, false, false, false, false, true⟩),
       [Req.acquireLease]) ∧
    acquire ⟨true, Option.none, false, false, false, false, true, false⟩ =
      (Except.error SpotErr.connectionError, []) := by
  refine ⟨?_, ?_, ?_⟩
  · exact (c9_acquire_spec ⟨true, some ⟨true⟩, false, false, false, false, false, false⟩).1 rfl rfl
  · exact (c9_acquire_spec ⟨true, Option.none, false, false, false, false, false, true⟩).2.1 rfl rfl rfl
  · exact (c9_acquire_spec ⟨true, Option.none, false, false, false, false, true, false⟩).2.2 rfl

end SpotKG
